import Mathlib

/-! Verification of the personalized-tutoring RAG assistant.

Shallow embedding of the repository's core components:
* `graph_nodes.py` / `main.py` (docs+response-generation): the four-stage
  LangGraph pipeline over `AgentState`, with LangGraph's update-merge
  semantics and Python exception propagation modelled by `Except`.
* `vector_store_manager.py`: the two persistent collections, reset,
  status, memory save/load.
* `upload_service.py` / `document_processor.py`: the batched ingestion run.
* `RAG_implementation/main.py`: the two-stage draft/refine `generate` node
  and its memory write-back.
* `aitutor/main.py`: quiz generation (`_generate_quiz_question`,
  `_start_quiz`) including a model of `json.loads` on the JSON fragment the
  quiz uses, and Python attribute lookup on `VectorStoreManager`.

The LLM is modelled as a stream (list) of response functions: each
completion call consumes the head and applies it to the prompt, so the
number of completion calls issued is observable as the number of consumed
stream elements.  Failures of external calls are `Except.error`, matching
a raised Python exception; absence of a `try/except` in the source is an
un-handled `←` bind.
-/

/-! Part: Agent state and LangGraph update-merge semantics (`graph_nodes.py`) -/

/-- The `AgentState` TypedDict of `graph_nodes.py`: `input` is always
present (the pipeline is invoked with `{"input": user_input}`), the other
three keys may be absent (`none`). -/
structure AgentState where
  input : String
  memory : Option String
  knowledge : Option String
  response : Option String
deriving Repr, DecidableEq

/-- A node's return value, i.e. a partial state update dict: `none` means
the key is absent from the returned dict. -/
structure StateUpdate where
  input : Option String
  memory : Option String
  knowledge : Option String
  response : Option String
deriving Repr, DecidableEq

/-- LangGraph merges a node's returned dict into the channel state: every
key present in the update overwrites the channel, absent keys keep their
previous value. -/
def applyUpdate (s : AgentState) (u : StateUpdate) : AgentState :=
  { input := match u.input with | some v => v | none => s.input
    memory := match u.memory with | some v => some v | none => s.memory
    knowledge := match u.knowledge with | some v => some v | none => s.knowledge
    response := match u.response with | some v => some v | none => s.response }

/-- Python `sep.join(xs)`. -/
def joinSep (sep : String) : List String → String
  | [] => ""
  | [x] => x
  | x :: xs => x ++ sep ++ joinSep sep xs

/-- Python dict `.get(key, default)` on a string-valued dict. -/
def dictGetD (d : List (String × String)) (key dflt : String) : String :=
  match d.find? (fun kv => kv.1 == key) with
  | some kv => kv.2
  | none => dflt

/-- The external calls the vector store manager makes for one query:
the `VectorStoreRetrieverMemory.load_memory_variables` result dict and the
knowledge retriever's `invoke` result (list of `page_content`).  Each may
raise (`Except.error`). -/
structure VectorEnv where
  memRaw : String → Except String (List (String × String))
  knowInvoke : String → Except String (List String)

/-- Embeds `VectorStoreManager.load_memory_variables`: call the retriever memory,
then `.get("history", "")`.  No `try/except`: a raised exception
propagates. -/
def load_memory_variables (env : VectorEnv) (input_text : String) :
    Except String String := do
  let memory_result ← env.memRaw input_text
  pure (dictGetD memory_result "history" "")

/-- Embeds `VectorStoreManager.retrieve_knowledge`: invoke the retriever and join
the page contents with newlines.  No `try/except`. -/
def retrieve_knowledge (env : VectorEnv) (query : String) :
    Except String String := do
  let docs ← env.knowInvoke query
  pure (joinSep "\n" docs)

/-- An LLM completion provider: a stream of response functions; each
`invoke` consumes the head and applies it to the prompt. -/
abbrev LLMStream := List (String → Except String String)

/-- One `self.llm.invoke([HumanMessage(content=prompt)])` call: consumes
the next canned behaviour from the stream. -/
def llmInvoke (llm : LLMStream) (prompt : String) :
    Except String (String × LLMStream) :=
  match llm with
  | [] => .error "LLM stream exhausted"
  | f :: rest => do
      let content ← f prompt
      pure (content, rest)

/-- Embeds `GraphNodes.retrieve_memory_node`: `{**state, "memory": memory}` —
the update dict carries every key already present plus `memory`. -/
def retrieve_memory_node (env : VectorEnv) (s : AgentState) :
    Except String StateUpdate := do
  let memory ← load_memory_variables env s.input
  pure { input := some s.input, memory := some memory,
         knowledge := s.knowledge, response := s.response }

/-- Embeds `GraphNodes.retrieve_knowledge_node`: `{**state, "knowledge": k}`. -/
def retrieve_knowledge_node (env : VectorEnv) (s : AgentState) :
    Except String StateUpdate := do
  let knowledge ← retrieve_knowledge env s.input
  pure { input := some s.input, memory := s.memory,
         knowledge := some knowledge, response := s.response }

/-- The prompt assembly of `generate_response_node`:
`"\n\n".join(filter(None, [knowledge section, memory section, user line]))`
where each labelled section is the empty string when its content is
falsy. -/
def buildPrompt (knowledge memory query : String) : String :=
  joinSep "\n\n"
    (([if knowledge ≠ "" then "Knowledge:\n" ++ knowledge else "",
       if memory ≠ "" then "Conversation History:\n" ++ memory else "",
       "User: " ++ query]).filter (fun x => x ≠ ""))

/-- Embeds `GraphNodes.generate_response_node`: reads `memory`/`knowledge` with
`.get(key, "")`, assembles the prompt, issues one completion call, and
returns `{**state, "response": response.content}`. -/
def generate_response_node (llm : LLMStream) (s : AgentState) :
    Except String (StateUpdate × LLMStream) := do
  let memory := s.memory.getD ""
  let knowledge := s.knowledge.getD ""
  let prompt := buildPrompt knowledge memory s.input
  let (response, llm') ← llmInvoke llm prompt
  pure ({ input := some s.input, memory := s.memory,
          knowledge := s.knowledge, response := some response }, llm')

/-- Embeds `GraphNodes.update_memory_node`: calls
`save_memory_context(state["input"], state["response"])` (a `KeyError` if
`response` is absent) and returns the empty update dict `{}`.  The memory
collection is the list of saved `(input, output)` pairs. -/
def update_memory_node (memStore : List (String × String)) (s : AgentState) :
    Except String (StateUpdate × List (String × String)) :=
  match s.response with
  | none => .error "KeyError: response"
  | some r =>
      pure ({ input := none, memory := none, knowledge := none,
              response := none }, memStore ++ [(s.input, r)])

/-- The compiled LangGraph workflow of `main.py:_create_graph`, invoked as
`memory_agent.invoke({"input": user_input})`: the four nodes run strictly
in sequence, each node's returned dict merged into the state. -/
def runPipeline (env : VectorEnv) (llm : LLMStream)
    (memStore : List (String × String)) (userInput : String) :
    Except String (AgentState × LLMStream × List (String × String)) := do
  let s0 : AgentState := ⟨userInput, none, none, none⟩
  let u1 ← retrieve_memory_node env s0
  let s1 := applyUpdate s0 u1
  let u2 ← retrieve_knowledge_node env s1
  let s2 := applyUpdate s1 u2
  let (u3, llm') ← generate_response_node llm s2
  let s3 := applyUpdate s2 u3
  let (u4, memStore') ← update_memory_node memStore s3
  let s4 := applyUpdate s3 u4
  pure (s4, llm', memStore')

/-- Embeds `RAGAssistant.process_user_input`: invoke the pipeline and return
`result.get("response", "Sorry, I couldn't generate a response.")`.
A raised exception propagates to the caller. -/
def process_user_input (env : VectorEnv) (llm : LLMStream)
    (memStore : List (String × String)) (userInput : String) :
    Except String String := do
  let (result, _, _) ← runPipeline env llm memStore userInput
  pure (result.response.getD "Sorry, I couldn't generate a response.")

/-! Part: Vector store manager over persisted collections
(`vector_store_manager.py`, `main.py`) -/

/-- A langchain `Document`: page content plus string-valued metadata. -/
structure PyDocument where
  page_content : String
  metadata : List (String × String)
deriving Repr, DecidableEq

/-- The manager's two Chroma collections.  Chroma persists writes to the
collection's `persist_directory` synchronously, so the in-memory store and
the directory contents are identified. -/
structure VectorStoreManager where
  memory_store : List PyDocument
  knowledge_store : List PyDocument
deriving Repr, DecidableEq

/-- Embeds `VectorStoreManager.__init__`: the two `Chroma(...)` constructors load
whatever the persistence directories already hold. -/
def vsmInit (memory_dir kb_dir : List PyDocument) : VectorStoreManager :=
  ⟨memory_dir, kb_dir⟩

/-- Embeds `VectorStoreManager.reset_collections`: `reset_collection()` on both
vectorstores — both collections are emptied. -/
def reset_collections (_m : VectorStoreManager) : VectorStoreManager :=
  ⟨[], []⟩

/-- Embeds `RAGAssistant.__init__` of `docs+response-generation/main.py`:
constructs the manager over the persisted directories and then calls
`reset_collections()` ("Reset collections on startup"). -/
def ragAssistantInit (memory_dir kb_dir : List PyDocument) : VectorStoreManager :=
  reset_collections (vsmInit memory_dir kb_dir)

/-- Embeds `RAGAssistant.__init__` of `aitutor/main.py`: same construction but the
`reset_collections()` line is commented out. -/
def aitutorAssistantInit (memory_dir kb_dir : List PyDocument) : VectorStoreManager :=
  vsmInit memory_dir kb_dir

/-- Embeds `VectorStoreManager.add_documents_to_knowledge_base`: appends to the
knowledge collection; on a storage exception returns `false` with the
collection unchanged. -/
def add_documents_to_knowledge_base (storageOk : Bool)
    (m : VectorStoreManager) (documents : List PyDocument) :
    VectorStoreManager × Bool :=
  if storageOk then ({ m with knowledge_store := m.knowledge_store ++ documents }, true)
  else (m, false)

/-- Increment the count for `key` in a Python-dict-style counter
(`file_types[file_type] = file_types.get(file_type, 0) + 1`). -/
def bumpCount (counts : List (String × Nat)) (key : String) : List (String × Nat) :=
  match counts.find? (fun kv => kv.1 == key) with
  | some _ => counts.map (fun kv => if kv.1 == key then (kv.1, kv.2 + 1) else kv)
  | none => counts ++ [(key, 1)]

/-- The file-type counting loop of `get_knowledge_base_status`: counts
every stored document carrying a `file_type` metadata key. -/
def countFileTypes (docs : List PyDocument) : List (String × Nat) :=
  docs.foldl (fun acc d =>
    match d.metadata.find? (fun kv => kv.1 == "file_type") with
    | some kv => bumpCount acc kv.2
    | none => acc) []

/-- The status dict of `get_knowledge_base_status`. -/
structure KBStatus where
  total_chunks : Nat
  file_types : List (String × Nat)
  success : Bool
deriving Repr, DecidableEq

/-- Embeds `VectorStoreManager.get_knowledge_base_status`: reads the persisted
knowledge collection and reports the true chunk count and per-file-type
counts. -/
def get_knowledge_base_status (m : VectorStoreManager) : KBStatus :=
  { total_chunks := m.knowledge_store.length
    file_types := countFileTypes m.knowledge_store
    success := true }

/-- Embeds `VectorStoreManager.save_memory_context`: the retriever memory's
`save_context({"input": q}, {"output": a})` stores one document whose
content is the langchain buffer rendering of the two dicts. -/
def save_memory_context (m : VectorStoreManager) (input_text output_text : String) :
    VectorStoreManager :=
  { m with memory_store :=
      m.memory_store ++ [⟨"input: " ++ input_text ++ "\noutput: " ++ output_text, []⟩] }

/-- Insert a document into a best-first list under a similarity score. -/
def insertBySim (score : PyDocument → Nat) (d : PyDocument) :
    List PyDocument → List PyDocument
  | [] => [d]
  | x :: xs => if score x ≤ score d then d :: x :: xs else x :: insertBySim score d xs

/-- Sort documents by non-increasing similarity score. -/
def sortBySimDesc (score : PyDocument → Nat) : List PyDocument → List PyDocument
  | [] => []
  | x :: xs => insertBySim score x (sortBySimDesc score xs)

/-- A retriever with `search_kwargs={"k": k}`: the `k` most similar stored
documents, best-first, under the (external) embedding similarity `sim`. -/
def similarityTopK (sim : String → String → Nat) (k : Nat) (query : String)
    (docs : List PyDocument) : List PyDocument :=
  (sortBySimDesc (fun d => sim query d.page_content) docs).take k

/-- Embeds `VectorStoreManager.load_memory_variables` expressed over the stored
memory collection: the `k = 5` retriever memory returns the joined page
contents of the most similar records, or the empty string for an empty
collection. -/
def load_memory_variables_store (sim : String → String → Nat)
    (m : VectorStoreManager) (input_text : String) : String :=
  joinSep "\n"
    ((similarityTopK sim 5 input_text m.memory_store).map (fun d => d.page_content))

/-- The per-collection reset of `textdoc_retrieval_app.py` (Clear Memory
button): `memory_vectorstore.reset_collection()` only. -/
def textdoc_clear_memory (stores : List PyDocument × List PyDocument) :
    List PyDocument × List PyDocument :=
  ([], stores.2)

/-- The per-collection reset of `textdoc_retrieval_app.py` (Clear Knowledge
Base button): `knowledge_vectorstore.reset_collection()` only. -/
def textdoc_clear_knowledge (stores : List PyDocument × List PyDocument) :
    List PyDocument × List PyDocument :=
  (stores.1, [])

/-! Part: Quiz generation (`aitutor/main.py`, `aitutor/app1.py`) -/

/-- The attributes `VectorStoreManager` actually defines: the instance
attributes assigned in `__init__` and the methods of the class body. -/
def vectorStoreManagerAttrs : List String :=
  ["embedding", "memory_vectorstore", "knowledge_vectorstore", "memory",
   "knowledge_retriever", "reset_collections",
   "add_documents_to_knowledge_base", "get_knowledge_base_status",
   "save_memory_context", "load_memory_variables", "retrieve_knowledge"]

/-- Python attribute lookup for the call
`vector_manager.get_random_knowledge_chunks(num_chunks=1)`: raises
`AttributeError` when the class defines no such attribute.  The success
branch is dead code — the attribute list contains no such name. -/
def get_random_knowledge_chunks_call (_m : VectorStoreManager) :
    Except String (List String) :=
  if "get_random_knowledge_chunks" ∈ vectorStoreManagerAttrs then
    .ok []
  else
    .error "AttributeError: VectorStoreManager object has no attribute get_random_knowledge_chunks"

/-- The sampling step of `RAGAssistant._start_quiz` (`aitutor/main.py`):
after the knowledge-base emptiness check it evaluates
`self.vector_manager.get_random_knowledge_chunks(num_chunks=1)` with no
surrounding `try/except`; on an empty knowledge base it returns early
(`none`). -/
def start_quiz_sample (m : VectorStoreManager) :
    Except String (Option (List String)) :=
  if (get_knowledge_base_status m).total_chunks > 0 then do
    let contexts ← get_random_knowledge_chunks_call m
    pure (some contexts)
  else
    pure none

/-- The sampling step of `generate_quiz_question` (`aitutor/app1.py`): the
same call wrapped in `try/except Exception`, which reports the error and
produces no contexts (so no question is ever set). -/
def app1_quiz_sample (m : VectorStoreManager) : Option (List String) :=
  match get_random_knowledge_chunks_call m with
  | .error _ => none
  | .ok contexts => some contexts

/-! Part: A model of `json.loads` on the quiz JSON fragment
(strings, arrays, objects; no escape sequences or numbers, which the quiz
schema does not use). -/

inductive Json where
  | str : String → Json
  | arr : List Json → Json
  | obj : List (String × Json) → Json

def isWsChar (c : Char) : Bool :=
  c == ' ' || c == '\n' || c == '\t' || c == '\r'

/-- Drop leading JSON whitespace. -/
def skipWs : List Char → List Char
  | [] => []
  | c :: cs => if isWsChar c then skipWs cs else c :: cs

/-- Parse the body of a string literal up to the closing quote. -/
def parseStringBody : List Char → Option (List Char × List Char)
  | [] => none
  | c :: cs =>
      if c == '"' then some ([], cs)
      else
        match parseStringBody cs with
        | some (body, rest) => some (c :: body, rest)
        | none => none

mutual

/-- Parse one JSON value (fuel-bounded recursion). -/
def parseValue : Nat → List Char → Option (Json × List Char)
  | 0, _ => none
  | Nat.succ fuel, input =>
    match skipWs input with
    | '"' :: cs =>
        match parseStringBody cs with
        | some (body, rest) => some (Json.str (String.mk body), rest)
        | none => none
    | '[' :: cs =>
        match skipWs cs with
        | ']' :: rest => some (Json.arr [], rest)
        | cs2 =>
            match parseElements fuel cs2 with
            | some (vs, rest) => some (Json.arr vs, rest)
            | none => none
    | '{' :: cs =>
        match skipWs cs with
        | '}' :: rest => some (Json.obj [], rest)
        | cs2 =>
            match parseMembers fuel cs2 with
            | some (kvs, rest) => some (Json.obj kvs, rest)
            | none => none
    | _ => none

/-- Parse the comma-separated elements of a non-empty array, consuming the
closing bracket. -/
def parseElements : Nat → List Char → Option (List Json × List Char)
  | 0, _ => none
  | Nat.succ fuel, input =>
    match parseValue fuel input with
    | none => none
    | some (v, rest) =>
      match skipWs rest with
      | ',' :: rest2 =>
          match parseElements fuel rest2 with
          | some (vs, rest3) => some (v :: vs, rest3)
          | none => none
      | ']' :: rest2 => some ([v], rest2)
      | _ => none

/-- Parse the members of a non-empty object, consuming the closing
brace. -/
def parseMembers : Nat → List Char → Option (List (String × Json) × List Char)
  | 0, _ => none
  | Nat.succ fuel, input =>
    match skipWs input with
    | '"' :: cs =>
      match parseStringBody cs with
      | none => none
      | some (keyBody, rest) =>
        match skipWs rest with
        | ':' :: rest2 =>
          match parseValue fuel rest2 with
          | none => none
          | some (v, rest3) =>
            match skipWs rest3 with
            | ',' :: rest4 =>
                match parseMembers fuel rest4 with
                | some (kvs, rest5) => some ((String.mk keyBody, v) :: kvs, rest5)
                | none => none
            | '}' :: rest4 => some ([(String.mk keyBody, v)], rest4)
            | _ => none
        | _ => none
    | _ => none

end

/-- Embeds `json.loads`: parse one value and require only whitespace after it
("Extra data" is a `JSONDecodeError`). -/
def json_loads (s : String) : Option Json :=
  match parseValue (2 * s.length + 2) s.toList with
  | some (v, rest) => if skipWs rest = [] then some v else none
  | none => none

/-- Embeds `lst.startswith`-style prefix removal on char lists. -/
def stripPrefixChars : List Char → List Char → Option (List Char)
  | [], rest => some rest
  | _, [] => none
  | p :: ps, c :: cs => if p == c then stripPrefixChars ps cs else none

/-- Python `str.replace`: replace non-overlapping occurrences left to
right (fuel-bounded). -/
def replaceAll : Nat → List Char → List Char → List Char → List Char
  | 0, _, _, s => s
  | Nat.succ fuel, pat, repl, s =>
    match s with
    | [] => []
    | c :: cs =>
      match stripPrefixChars pat s with
      | some rest => repl ++ replaceAll fuel pat repl rest
      | none => c :: replaceAll fuel pat repl cs

def pyReplace (s pat repl : String) : String :=
  String.mk (replaceAll (s.length + 1) pat.toList repl.toList s.toList)

/-- Python `str.strip()`: drop whitespace at both ends. -/
def pyStrip (s : String) : String :=
  String.mk ((skipWs ((skipWs s.toList).reverse)).reverse)

/-- The clean-up line of `_generate_quiz_question`:
`response.content.strip().replace("```json", "").replace("```", "")`. -/
def cleanup_llm_json (content : String) : String :=
  pyReplace (pyReplace (pyStrip content) "```json" "") "```" ""

/-- The parse step of `RAGAssistant._generate_quiz_question`
(`aitutor/main.py`): `json.loads` of the cleaned completion inside
`try/except (json.JSONDecodeError, AttributeError)`, which returns `None`
on parse failure.  No schema check is performed on a successful parse. -/
def generate_quiz_question_parse (content : String) : Option Json :=
  json_loads (cleanup_llm_json content)

/-- The constrained quiz prompt built from the sampled context (the JSON
example block of the f-string is elided; no claim inspects the prompt
text). -/
def quizPrompt (context : String) : String :=
  "Based on the following context, please generate a single multiple-choice question.\n" ++
  "Context:\n" ++ context ++ "\n" ++
  "Provide your response in a valid JSON format with the keys question, options, correct_answer.\n" ++
  "Do not include any other text or explanations outside of the JSON object."

/-- Embeds `RAGAssistant._generate_quiz_question`: one completion call, then the
clean-up and parse.  An LLM exception is not among the caught exception
types and propagates. -/
def generate_quiz_question (llm : LLMStream) (context : String) :
    Except String (Option Json × LLMStream) := do
  let (content, llm') ← llmInvoke llm (quizPrompt context)
  pure (generate_quiz_question_parse content, llm')

/-- Lookup in a parsed JSON object. -/
def jsonLookup (kvs : List (String × Json)) (k : String) : Option Json :=
  (kvs.find? (fun kv => kv.1 == k)).map Prod.snd

def isOptionsList : Json → Bool
  | Json.arr vs =>
      vs.length == 4 &&
      vs.all (fun v => match v with | Json.str _ => true | _ => false)
  | _ => false

/-- The quiz-question schema as the specification states it: exactly the
keys `question`, `options` (a list of 4 strings) and `correct_answer`
(one of A/B/C/D).  Stated from the spec to compare against what the code
returns. -/
def validQuizSchema : Json → Bool
  | Json.obj kvs =>
      kvs.length == 3 &&
      (match jsonLookup kvs "question" with
       | some (Json.str _) => true
       | _ => false) &&
      (match jsonLookup kvs "options" with
       | some v => isOptionsList v
       | _ => false) &&
      (match jsonLookup kvs "correct_answer" with
       | some (Json.str s) => s == "A" || s == "B" || s == "C" || s == "D"
       | _ => false)
  | _ => false

/-! Part: Document ingestion (`document_processor.py`, `upload_service.py`) -/

/-- The file extensions `get_files_by_type` returns under the default
`['.pdf', '.txt']` filter. -/
inductive FileExt where
  | pdf
  | txt
deriving Repr, DecidableEq

structure UFile where
  name : String
  ext : FileExt
deriving Repr, DecidableEq

/-- Embeds `DocumentProcessor.process_file` for a supported extension: extract
(the extractors return the empty string on any read error), fail when no
content was extracted, otherwise chunk with provenance metadata.  The
extractor and the `RecursiveCharacterTextSplitter` are the external
parameters `extract` and `chunk`. -/
def process_file (extract : UFile → String)
    (chunk : String → UFile → List PyDocument) (f : UFile) :
    List PyDocument × Bool :=
  let content := extract f
  if content = "" then ([], false) else (chunk content f, true)

/-- The accumulation loop of `UploadService.upload_documents`: builds
`all_documents`, `processed_files` and the two file-type counters over the
discovered files in order; a file whose processing fails changes nothing.
(Structurally recursive rendering of the Python `for` loop; the
accumulated values are identical.) -/
def uploadLoop (process : UFile → List PyDocument × Bool) :
    List UFile → List PyDocument × Nat × Nat × Nat
  | [] => ([], 0, 0, 0)
  | f :: rest =>
      let (documents, ok) := process f
      let (accDocs, n, p, t) := uploadLoop process rest
      if ok then
        (documents ++ accDocs, n + 1,
         p + (if f.ext = FileExt.pdf then 1 else 0),
         t + (if f.ext = FileExt.txt then 1 else 0))
      else
        (accDocs, n, p, t)

/-- The result dict of `upload_documents`. -/
structure UploadStats where
  success : Bool
  processed_files : Nat
  total_chunks : Nat
  pdf_count : Nat
  txt_count : Nat
deriving Repr, DecidableEq

/-- Embeds `UploadService.upload_documents`: discover files, accumulate chunks
per file, then issue at most one batched
`add_documents_to_knowledge_base` call.  The second component records the
add calls issued (each element one batch); `storageOk` is the outcome of
that single call. -/
def upload_documents (process : UFile → List PyDocument × Bool)
    (storageOk : Bool) (files : List UFile) :
    UploadStats × List (List PyDocument) :=
  if files = [] then
    ({ success := false, processed_files := 0, total_chunks := 0,
       pdf_count := 0, txt_count := 0 }, [])
  else
    let (all_documents, processed_files, pdfs, txts) := uploadLoop process files
    if all_documents ≠ [] then
      if storageOk then
        ({ success := true, processed_files := processed_files,
           total_chunks := all_documents.length,
           pdf_count := pdfs, txt_count := txts }, [all_documents])
      else
        ({ success := false, processed_files := 0, total_chunks := 0,
           pdf_count := 0, txt_count := 0 }, [all_documents])
    else
      ({ success := false, processed_files := 0, total_chunks := 0,
         pdf_count := 0, txt_count := 0 }, [])

/-- A concrete processing outcome used to evaluate an ingestion run: the
file named "bad" fails extraction, every other file yields one chunk. -/
def sampleProcessor : UFile → List PyDocument × Bool := fun f =>
  if f.name = "bad" then ([], false) else ([⟨f.name, []⟩], true)

/-! Part: The two-stage draft/refine generate node
(`RAG_implementation/main.py`) -/

/-- The `RAGState` after `generate`. -/
structure RIState where
  input : String
  docs : List String
  memory : List String
  draft : String
  answer : String
deriving Repr, DecidableEq

/-- Embeds `combined_context` of `generate`. -/
def riCombinedContext (docs memory : List String) : String :=
  "[Retrieved Document Context]\n" ++
    joinSep "\n\n" (docs.map (fun d => "- " ++ d)) ++
    "\n\n[Relevant Memory]\n" ++
    joinSep "\n\n" (memory.map (fun d => "- " ++ d))

/-- Embeds `draft_prompt` of `generate`. -/
def riDraftPrompt (ctx input : String) : String :=
  "The following context and memories have been retrieved:\n\n" ++ ctx ++
  "\n\nNow, answer the following question clearly and completely:\n\nQuestion: " ++
  input ++ "\n"

/-- Embeds `refine_prompt` of `generate`. -/
def riRefinePrompt (ctx draft : String) : String :=
  "Refine the following draft answer using only the given context and memory.\n" ++
  "Ensure it is well-written, clear, and grounded in source content.\n\nContext:\n" ++
  ctx ++ "\n\nDraft Answer:\n" ++ draft ++ "\n\nRefined Answer:"

/-- The `generate` node of `RAG_implementation/main.py`: draft completion,
refine completion, then append the memory record
`Document(page_content=f"Q: ...\nA: ...", metadata={"source": "memory"})`
to the memory vectorstore and return the full state. -/
def generate (llm : LLMStream) (memory_vectorstore : List PyDocument)
    (input : String) (docs memory : List String) :
    Except String (RIState × LLMStream × List PyDocument) := do
  let ctx := riCombinedContext docs memory
  let (draft_response, llm1) ← llmInvoke llm (riDraftPrompt ctx input)
  let (final_response, llm2) ← llmInvoke llm1 (riRefinePrompt ctx draft_response)
  let memory_doc : PyDocument :=
    ⟨"Q: " ++ input ++ "\nA: " ++ final_response, [("source", "memory")]⟩
  pure (⟨input, docs, memory, draft_response, final_response⟩, llm2,
        memory_vectorstore ++ [memory_doc])

/-! Part: Theorems -/

/-- A string with a non-empty prefix is non-empty. -/
theorem append_ne_empty (pre t : String) (h : pre.length ≠ 0) : pre ++ t ≠ "" := by
  intro hc
  have h2 := congrArg String.length hc
  simp [String.length_append] at h2
  exact h h2.1

/-- C1 (counterexample): with a memory retrieval that raises, the pipeline
on query "hi" does not continue to Generate with an empty substitute — it
aborts with the raised error, even though the LLM is available. -/
theorem C1_counterexample :
    runPipeline ⟨fun _ => Except.error "boom", fun _ => Except.ok ["k"]⟩
        [fun _ => Except.ok "ans"] [] "hi" = Except.error "boom" := by
  rfl

/-- C1 (amended): a failure inside RetrieveMemory or RetrieveKnowledge is
not caught anywhere in the pipeline: it propagates and aborts the query
with that error.  The only degrade-to-empty behaviour in the stage is
`load_memory_variables` substituting the empty string when the memory
result lacks a `history` key. -/
theorem C1_retrieval_failure_aborts
    (env : VectorEnv) (llm : LLMStream) (memStore : List (String × String))
    (q e : String) (d : List (String × String)) :
    (env.memRaw q = Except.error e →
        runPipeline env llm memStore q = Except.error e) ∧
    (env.memRaw q = Except.ok d → env.knowInvoke q = Except.error e →
        runPipeline env llm memStore q = Except.error e) ∧
    (env.memRaw q = Except.ok [] → load_memory_variables env q = Except.ok "") := by
  refine ⟨fun h1 => ?_, fun h1 h2 => ?_, fun h1 => ?_⟩
  · simp [runPipeline, retrieve_memory_node, load_memory_variables, h1,
      bind, Except.bind]
  · simp [runPipeline, retrieve_memory_node, retrieve_knowledge_node,
      load_memory_variables, retrieve_knowledge, applyUpdate, h1, h2,
      bind, Except.bind, pure, Except.pure]
  · simp [load_memory_variables, h1, dictGetD, bind, Except.bind, pure, Except.pure]

/-- C1 (witness). -/
theorem C1_witness :
    (VectorEnv.memRaw ⟨fun _ => Except.error "down", fun _ => Except.ok []⟩ "q"
        = Except.error "down") ∧
    runPipeline ⟨fun _ => Except.error "down", fun _ => Except.ok []⟩ [] [] "q"
        = Except.error "down" :=
  ⟨rfl,
   (C1_retrieval_failure_aborts ⟨fun _ => Except.error "down", fun _ => Except.ok []⟩
      [] [] "q" "down" []).1 rfl⟩

/-- C2 (counterexample): with a failing LLM, `process_user_input` does not
return the apologetic string — the raw error propagates to its caller. -/
theorem C2_counterexample :
    process_user_input ⟨fun _ => Except.ok [], fun _ => Except.ok []⟩
        [fun _ => Except.error "LLM down"] [] "hi"
      = Except.error "LLM down" := by
  rfl

/-- C2 (amended): an LLM completion failure propagates raw out of
`process_user_input` (only the top-level CLI `main` catches it); on a
successful completion the returned answer is exactly the LLM's text, so
the apologetic default is never the answer of a completed pipeline run. -/
theorem C2_llm_failure_propagates
    (env : VectorEnv) (f : String → Except String String) (rest : LLMStream)
    (memStore : List (String × String)) (q e r : String)
    (d : List (String × String)) (ds : List String) :
    (env.memRaw q = Except.ok d → env.knowInvoke q = Except.ok ds →
      (∀ p, f p = Except.error e) →
      process_user_input env (f :: rest) memStore q = Except.error e) ∧
    (env.memRaw q = Except.ok d → env.knowInvoke q = Except.ok ds →
      (∀ p, f p = Except.ok r) →
      process_user_input env (f :: rest) memStore q = Except.ok r) := by
  constructor <;> intro h1 h2 hf <;>
    simp [process_user_input, runPipeline, retrieve_memory_node,
      retrieve_knowledge_node, generate_response_node, update_memory_node,
      load_memory_variables, retrieve_knowledge, llmInvoke, applyUpdate,
      h1, h2, hf, pure, Except.pure, bind, Except.bind, Functor.map, Except.map]

/-- C2 (witness). -/
theorem C2_witness :
    (VectorEnv.memRaw ⟨fun _ => Except.ok [], fun _ => Except.ok []⟩ "q"
        = Except.ok []) ∧
    (VectorEnv.knowInvoke ⟨fun _ => Except.ok [], fun _ => Except.ok []⟩ "q"
        = Except.ok []) ∧
    (∀ p, (fun _ => Except.error "oops" : String → Except String String) p
        = Except.error "oops") ∧
    process_user_input ⟨fun _ => Except.ok [], fun _ => Except.ok []⟩
        [fun _ => Except.error "oops"] [] "q" = Except.error "oops" :=
  ⟨rfl, rfl, fun _ => rfl,
   (C2_llm_failure_propagates ⟨fun _ => Except.ok [], fun _ => Except.ok []⟩
      (fun _ => Except.error "oops") [] [] "q" "oops" "r" [] []).1
    rfl rfl (fun _ => rfl)⟩

/-- C3: the prompt passed to the single completion call is assembled in
the fixed order knowledge context, memory context, literal user question;
a section whose content is empty is omitted entirely (its label never
appears); and `generate_response_node` issues exactly one completion call
(it consumes exactly the head of the LLM stream). -/
theorem C3_prompt_assembly_single_call
    (kn mem q : String) (s : AgentState) (f : String → Except String String)
    (rest : LLMStream) (r : String) :
    (kn ≠ "" → mem ≠ "" → buildPrompt kn mem q =
        joinSep "\n\n"
          ["Knowledge:\n" ++ kn, "Conversation History:\n" ++ mem, "User: " ++ q]) ∧
    (kn ≠ "" → mem = "" → buildPrompt kn mem q =
        joinSep "\n\n" ["Knowledge:\n" ++ kn, "User: " ++ q]) ∧
    (kn = "" → mem ≠ "" → buildPrompt kn mem q =
        joinSep "\n\n" ["Conversation History:\n" ++ mem, "User: " ++ q]) ∧
    (kn = "" → mem = "" → buildPrompt kn mem q = "User: " ++ q) ∧
    (f (buildPrompt (s.knowledge.getD "") (s.memory.getD "") s.input) = Except.ok r →
      generate_response_node (f :: rest) s =
        Except.ok (⟨some s.input, s.memory, s.knowledge, some r⟩, rest)) := by
  have hK : ("Knowledge:\n" ++ kn) ≠ "" := append_ne_empty _ _ (by decide)
  have hM : ("Conversation History:\n" ++ mem) ≠ "" := append_ne_empty _ _ (by decide)
  have hU : ("User: " ++ q) ≠ "" := append_ne_empty _ _ (by decide)
  refine ⟨fun h1 h2 => ?_, fun h1 h2 => ?_, fun h1 h2 => ?_, fun h1 h2 => ?_,
    fun hf => ?_⟩
  · simp [buildPrompt, h1, h2, List.filter_cons, hK, hM, hU]
  · simp [buildPrompt, h1, h2, List.filter_cons, hK, hU]
  · simp [buildPrompt, h1, h2, List.filter_cons, hM, hU]
  · simp [buildPrompt, h1, h2, List.filter_cons, hU, joinSep]
  · simp [generate_response_node, llmInvoke, hf]

/-- C3 (witness). -/
theorem C3_witness :
    ("K1" : String) ≠ "" ∧ ("M1" : String) ≠ "" ∧
    (buildPrompt "K1" "M1" "Q1" =
      joinSep "\n\n"
        ["Knowledge:\n" ++ "K1", "Conversation History:\n" ++ "M1", "User: " ++ "Q1"]) ∧
    generate_response_node [fun _ => Except.ok "ans"]
        ⟨"Q1", some "M1", some "K1", none⟩ =
      Except.ok (⟨some "Q1", some "M1", some "K1", some "ans"⟩, []) :=
  ⟨by decide, by decide,
   (C3_prompt_assembly_single_call "K1" "M1" "Q1" ⟨"Q1", some "M1", some "K1", none⟩
      (fun _ => Except.ok "ans") [] "ans").1 (by decide) (by decide),
   (C3_prompt_assembly_single_call "K1" "M1" "Q1" ⟨"Q1", some "M1", some "K1", none⟩
      (fun _ => Except.ok "ans") [] "ans").2.2.2.2 rfl⟩

/-- C4 (counterexample): `saveMemory("q", "a")` persists the record, but a
restart of the application re-runs `RAGAssistant.__init__`, whose
`reset_collections()` call empties both collections: after the restart the
memory collection is empty and `loadMemory("q")` returns the empty string,
which does not contain the saved record. -/
theorem C4_counterexample :
    (save_memory_context (ragAssistantInit [] []) "q" "a").memory_store
        = [⟨"input: q\noutput: a", []⟩] ∧
    (ragAssistantInit
        (save_memory_context (ragAssistantInit [] []) "q" "a").memory_store
        (save_memory_context (ragAssistantInit [] []) "q" "a").knowledge_store).memory_store
        = [] ∧
    load_memory_variables_store (fun _ _ => 0)
        (ragAssistantInit
          (save_memory_context (ragAssistantInit [] []) "q" "a").memory_store
          (save_memory_context (ragAssistantInit [] []) "q" "a").knowledge_store) "q"
        = "" :=
  ⟨rfl, rfl, rfl⟩

/-- C4 (amended): the Vector Store Manager itself persists across a
restart — re-constructing just the manager over the same persistence
directories makes `loadMemory(q)` return the saved record — but
`RAGAssistant.__init__` (docs+response-generation `main.py`) then calls
`reset_collections()` on startup, so a restart of that application empties
the collections and loses the record. -/
theorem C4_restart_persistence (q a : String) (sim : String → String → Nat) :
    (load_memory_variables_store sim
        (vsmInit (save_memory_context (vsmInit [] []) q a).memory_store
          (save_memory_context (vsmInit [] []) q a).knowledge_store) q
      = "input: " ++ q ++ "\noutput: " ++ a) ∧
    (load_memory_variables_store sim
        (ragAssistantInit (save_memory_context (vsmInit [] []) q a).memory_store
          (save_memory_context (vsmInit [] []) q a).knowledge_store) q
      = "") :=
  ⟨rfl, rfl⟩

/-- C5: quiz sampling is an undefined-attribute error: even with a
non-empty knowledge base, `_start_quiz` raises `AttributeError` at the
`get_random_knowledge_chunks` call because `VectorStoreManager` defines no
such attribute, and the Streamlit entry point, which catches the
exception, likewise produces no contexts — no quiz question can be
produced. -/
theorem C5_quiz_sampling_undefined_attribute (m : VectorStoreManager)
    (h : (get_knowledge_base_status m).total_chunks > 0) :
    start_quiz_sample m =
      Except.error "AttributeError: VectorStoreManager object has no attribute get_random_knowledge_chunks" ∧
    app1_quiz_sample m = none := by
  constructor
  · unfold start_quiz_sample
    rw [if_pos h]
    rfl
  · rfl

/-- C5 (witness). -/
theorem C5_witness :
    (get_knowledge_base_status ⟨[], [⟨"chunk", []⟩]⟩).total_chunks > 0 ∧
    (start_quiz_sample ⟨[], [⟨"chunk", []⟩]⟩ =
        Except.error "AttributeError: VectorStoreManager object has no attribute get_random_knowledge_chunks" ∧
      app1_quiz_sample ⟨[], [⟨"chunk", []⟩]⟩ = none) :=
  ⟨by decide, C5_quiz_sampling_undefined_attribute ⟨[], [⟨"chunk", []⟩]⟩ (by decide)⟩

/-- C6 (counterexample): the completion `{"question": "q"}` parses as JSON
but has none of the required schema beyond `question`; quiz generation
does not return a failure — it returns the partially-filled,
schema-violating object. -/
theorem C6_counterexample :
    generate_quiz_question [fun _ => Except.ok "\x7b\"question\": \"q\"\x7d"] "ctx"
        = Except.ok (some (Json.obj [("question", Json.str "q")]), []) ∧
    validQuizSchema (Json.obj [("question", Json.str "q")]) = false :=
  ⟨rfl, rfl⟩

/-- C6 (amended): `_generate_quiz_question` fails (returns `None`) exactly
when the fence-stripped completion fails to parse as JSON; a parseable
completion is returned as-is with no schema validation, so
schema-violating objects are passed through.  Code-fence wrapping is
stripped before parsing, and a non-JSON completion yields `None`. -/
theorem C6_parse_only_no_schema_validation (content : String) (v : Json) :
    (json_loads (cleanup_llm_json content) = some v →
        generate_quiz_question_parse content = some v) ∧
    (json_loads (cleanup_llm_json content) = none →
        generate_quiz_question_parse content = none) ∧
    (generate_quiz_question_parse "```json\n\x7b\"question\": \"q\"\x7d\n```"
        = some (Json.obj [("question", Json.str "q")])) ∧
    (generate_quiz_question_parse "I cannot produce JSON for that." = none) :=
  ⟨fun h => h, fun h => h, rfl, rfl⟩

/-- C6 (witness). -/
theorem C6_witness :
    json_loads (cleanup_llm_json "\x7b\"a\": \"b\"\x7d")
        = some (Json.obj [("a", Json.str "b")]) ∧
    generate_quiz_question_parse "\x7b\"a\": \"b\"\x7d"
        = some (Json.obj [("a", Json.str "b")]) :=
  ⟨rfl,
   (C6_parse_only_no_schema_validation "\x7b\"a\": \"b\"\x7d"
      (Json.obj [("a", Json.str "b")])).1 rfl⟩

/-- The accumulation loop gathers exactly the chunks of the successfully
processed files, in file order, and counts exactly those files. -/
theorem uploadLoop_characterization (process : UFile → List PyDocument × Bool)
    (files : List UFile) :
    (uploadLoop process files).1 =
      ((files.filter (fun f => (process f).2)).map (fun f => (process f).1)).flatten ∧
    (uploadLoop process files).2.1 = (files.filter (fun f => (process f).2)).length := by
  induction files with
  | nil => simp [uploadLoop]
  | cons f fs ih =>
    rcases hp : process f with ⟨docs, ok⟩
    rcases hu : uploadLoop process fs with ⟨accDocs, n, p, t⟩
    rw [hu] at ih
    simp at ih
    cases ok <;>
      simp [uploadLoop, hp, hu, List.filter_cons, ih.1, ih.2]

/-- A file whose processing fails contributes nothing: the run behaves as
if the file were absent, and the remaining files are still processed. -/
theorem uploadLoop_skip (process : UFile → List PyDocument × Bool)
    (xs ys : List UFile) (bad : UFile) (hbad : (process bad).2 = false) :
    uploadLoop process (xs ++ bad :: ys) = uploadLoop process (xs ++ ys) := by
  induction xs with
  | nil =>
    rcases hb : process bad with ⟨docs, ok⟩
    rw [hb] at hbad
    simp at hbad
    subst hbad
    simp [uploadLoop, hb]
  | cons x xs ih =>
    simp [uploadLoop, List.cons_append, ih]

/-- C7: an ingestion run accumulates the chunks of all successfully
processed files and issues exactly one batched add call to the knowledge
collection (whose batch is the whole accumulation); a file whose
extraction fails is skipped — the run equals the run without it — and the
processed-file count is exactly the number of successful files. -/
theorem C7_single_batched_add (process : UFile → List PyDocument × Bool)
    (storageOk : Bool) (files xs ys : List UFile) (bad : UFile) :
    (files ≠ [] → (uploadLoop process files).1 ≠ [] →
      (upload_documents process storageOk files).2
        = [(uploadLoop process files).1]) ∧
    ((process bad).2 = false →
      uploadLoop process (xs ++ bad :: ys) = uploadLoop process (xs ++ ys)) ∧
    (uploadLoop process files).1 =
      ((files.filter (fun f => (process f).2)).map (fun f => (process f).1)).flatten ∧
    (uploadLoop process files).2.1
      = (files.filter (fun f => (process f).2)).length := by
  refine ⟨fun hne hdocs => ?_,
    fun hbad => uploadLoop_skip process xs ys bad hbad,
    (uploadLoop_characterization process files).1,
    (uploadLoop_characterization process files).2⟩
  rcases hu : uploadLoop process files with ⟨docs, n, p, t⟩
  rw [hu] at hdocs
  simp at hdocs
  cases storageOk <;> simp [upload_documents, hne, hu, hdocs]

/-- C7 (witness). -/
theorem C7_witness :
    ([⟨"a", FileExt.pdf⟩, ⟨"bad", FileExt.txt⟩, ⟨"b", FileExt.txt⟩] : List UFile) ≠ [] ∧
    (uploadLoop sampleProcessor
        [⟨"a", FileExt.pdf⟩, ⟨"bad", FileExt.txt⟩, ⟨"b", FileExt.txt⟩]).1 ≠ [] ∧
    (upload_documents sampleProcessor true
        [⟨"a", FileExt.pdf⟩, ⟨"bad", FileExt.txt⟩, ⟨"b", FileExt.txt⟩]).2
      = [(uploadLoop sampleProcessor
          [⟨"a", FileExt.pdf⟩, ⟨"bad", FileExt.txt⟩, ⟨"b", FileExt.txt⟩]).1] :=
  ⟨by decide, by decide,
   (C7_single_batched_add sampleProcessor true
      [⟨"a", FileExt.pdf⟩, ⟨"bad", FileExt.txt⟩, ⟨"b", FileExt.txt⟩] [] []
      ⟨"bad", FileExt.txt⟩).1 (by decide) (by decide)⟩

/-- C8: after every successful run of the draft/refine `generate` node,
exactly one memory record is appended to the memory collection, whose
content is the literal text `"Q: <question>\nA: <answer>"` for the state's
input and final answer, and whose metadata is `{source: "memory"}`. -/
theorem C8_memory_record (llm : LLMStream) (store : List PyDocument)
    (input : String) (docs memory : List String) (st : RIState)
    (llm' : LLMStream) (store' : List PyDocument)
    (h : generate llm store input docs memory = Except.ok (st, llm', store')) :
    store' = store ++
      [⟨"Q: " ++ input ++ "\nA: " ++ st.answer, [("source", "memory")]⟩] ∧
    st.input = input := by
  cases llm with
  | nil => simp [generate, llmInvoke, bind, Except.bind, Functor.map, Except.map, pure, Except.pure] at h
  | cons f rest =>
    cases hf : f (riDraftPrompt (riCombinedContext docs memory) input) with
    | error e =>
      simp [generate, llmInvoke, hf, bind, Except.bind, Functor.map, Except.map, pure, Except.pure] at h
    | ok draft =>
      cases rest with
      | nil =>
        simp [generate, llmInvoke, hf, bind, Except.bind, Functor.map, Except.map, pure, Except.pure] at h
      | cons g rest2 =>
        cases hg : g (riRefinePrompt (riCombinedContext docs memory) draft) with
        | error e =>
          simp [generate, llmInvoke, hf, hg, bind, Except.bind, Functor.map,
            Except.map, pure, Except.pure] at h
        | ok final =>
          simp [generate, llmInvoke, hf, hg, pure, Except.pure, bind, Except.bind,
            Functor.map, Except.map] at h
          obtain ⟨hst, -, hstore⟩ := h
          subst hst
          subst hstore
          exact ⟨rfl, rfl⟩

/-- C8 (witness). -/
theorem C8_witness :
    generate [fun _ => Except.ok "draft", fun _ => Except.ok "final"] []
        "q" [] []
      = Except.ok (⟨"q", [], [], "draft", "final"⟩, [],
          [⟨"Q: q\nA: final", [("source", "memory")]⟩]) ∧
    ([⟨"Q: q\nA: final", [("source", "memory")]⟩] : List PyDocument)
      = [] ++ [⟨"Q: " ++ "q" ++ "\nA: " ++
          (RIState.mk "q" [] [] "draft" "final").answer, [("source", "memory")]⟩] ∧
    (RIState.mk "q" [] [] "draft" "final").input = "q" :=
  ⟨rfl,
   (C8_memory_record [fun _ => Except.ok "draft", fun _ => Except.ok "final"] []
      "q" [] [] ⟨"q", [], [], "draft", "final"⟩ []
      [⟨"Q: q\nA: final", [("source", "memory")]⟩] rfl).1,
   (C8_memory_record [fun _ => Except.ok "draft", fun _ => Except.ok "final"] []
      "q" [] [] ⟨"q", [], [], "draft", "final"⟩ []
      [⟨"Q: q\nA: final", [("source", "memory")]⟩] rfl).2⟩

/-- C9 (counterexample): the Vector Store Manager exposes no
per-collection reset: its only reset, `reset_collections`, empties the
memory collection as well, so a caller resetting knowledge through it does
not leave memory unchanged. -/
theorem C9_counterexample :
    reset_collections
        (⟨[⟨"input: q\noutput: a", []⟩], [⟨"k", [("file_type", "txt")]⟩]⟩ :
          VectorStoreManager)
      = ⟨[], []⟩ ∧
    (reset_collections
        (⟨[⟨"input: q\noutput: a", []⟩], [⟨"k", [("file_type", "txt")]⟩]⟩ :
          VectorStoreManager)).memory_store
      ≠ [⟨"input: q\noutput: a", []⟩] :=
  ⟨rfl, by decide⟩

/-- C9 (amended): `reset_collections` empties both collections — knowledge
status immediately afterwards reports zero chunks, but the memory
collection is emptied too rather than left unchanged.  A knowledge-only
reset exists only in the Streamlit text app, which calls
`reset_collection()` on the knowledge vectorstore alone and leaves the
memory vectorstore untouched. -/
theorem C9_reset_is_combined (m : VectorStoreManager)
    (stores : List PyDocument × List PyDocument) :
    (get_knowledge_base_status (reset_collections m)).total_chunks = 0 ∧
    (reset_collections m).memory_store = [] ∧
    (textdoc_clear_knowledge stores).1 = stores.1 ∧
    (textdoc_clear_knowledge stores).2 = [] :=
  ⟨rfl, rfl, rfl, rfl⟩

/-- C10: Agent State is strictly additive across the pipeline: whenever a
stage's node succeeds, merging its returned update into the state it
received yields that state with only the stage's own field newly set
(`memory`, `knowledge`, `response` respectively), and the persist stage
changes nothing — in particular no stage removes or overwrites a prior
field and `input` is identical in every stage's output. -/
theorem C10_agent_state_additive
    (env : VectorEnv) (llm : LLMStream) (memStore : List (String × String))
    (s : AgentState) (u : StateUpdate) (llm' : LLMStream)
    (memStore' : List (String × String)) :
    (retrieve_memory_node env s = Except.ok u →
        ∃ m, applyUpdate s u = { s with memory := some m }) ∧
    (retrieve_knowledge_node env s = Except.ok u →
        ∃ k, applyUpdate s u = { s with knowledge := some k }) ∧
    (generate_response_node llm s = Except.ok (u, llm') →
        ∃ r, applyUpdate s u = { s with response := some r }) ∧
    (update_memory_node memStore s = Except.ok (u, memStore') →
        applyUpdate s u = s) := by
  refine ⟨fun h => ?_, fun h => ?_, fun h => ?_, fun h => ?_⟩
  · cases hm : load_memory_variables env s.input with
    | error e => simp [retrieve_memory_node, hm] at h
    | ok m =>
      refine ⟨m, ?_⟩
      simp [retrieve_memory_node, hm] at h
      subst h
      cases hk : s.knowledge <;> cases hr : s.response <;>
        simp [applyUpdate, hk, hr]
  · cases hm : retrieve_knowledge env s.input with
    | error e => simp [retrieve_knowledge_node, hm] at h
    | ok k =>
      refine ⟨k, ?_⟩
      simp [retrieve_knowledge_node, hm] at h
      subst h
      cases hme : s.memory <;> cases hr : s.response <;>
        simp [applyUpdate, hme, hr]
  · cases llm with
    | nil => simp [generate_response_node, llmInvoke] at h
    | cons f fs =>
      cases hf : f (buildPrompt (s.knowledge.getD "") (s.memory.getD "") s.input) with
      | error e => simp [generate_response_node, llmInvoke, hf] at h
      | ok r =>
        refine ⟨r, ?_⟩
        simp [generate_response_node, llmInvoke, hf] at h
        obtain ⟨hu, -⟩ := h
        subst hu
        cases hk : s.knowledge <;> cases hme : s.memory <;>
          simp [applyUpdate, hk, hme]
  · cases hr : s.response with
    | none => simp [update_memory_node, hr] at h
    | some r =>
      simp [update_memory_node, hr, pure, Except.pure] at h
      obtain ⟨hu, -⟩ := h
      subst hu
      rfl

/-- C10 (witness). -/
theorem C10_witness :
    retrieve_memory_node ⟨fun _ => Except.ok [("history", "M")], fun _ => Except.ok ["K"]⟩
        ⟨"hi", none, none, none⟩
      = Except.ok ⟨some "hi", some "M", none, none⟩ ∧
    ∃ m, applyUpdate ⟨"hi", none, none, none⟩ ⟨some "hi", some "M", none, none⟩
        = { (⟨"hi", none, none, none⟩ : AgentState) with memory := some m } :=
  ⟨rfl,
   (C10_agent_state_additive
      ⟨fun _ => Except.ok [("history", "M")], fun _ => Except.ok ["K"]⟩ [] []
      ⟨"hi", none, none, none⟩ ⟨some "hi", some "M", none, none⟩ [] []).1 rfl⟩
